import Mathlib

/-!
Verification development for the PSD Procedural Logic Engine store
(`src/store/ProceduralContext.tsx`).  The TypeScript store is shallowly
embedded: the payload record becomes a Lean structure with `Option` fields
for the optional TS fields (JS truthiness of an optional string field is
`strTruthy`, of an optional boolean field `boolTruthy`), the registries
become lookup functions, and every writer of the store becomes a pure
function on the store state.  Each `useState` updater either returns its
previous object (`prev`) unchanged or builds a fresh one; that distinction
is React's change signal, and it is recorded as the `Bool` component of a
writer's result (`false` means the updater returned `prev`).
-/

namespace PSD

/-- A layer of a transformed payload.  The store only inspects `id` and
`type` (`reconcileTerminalState`, line 101-103); remaining layer data is
carried opaquely and never examined, so it is omitted. -/
structure Layer where
  id : String
  type : String
  deriving DecidableEq, Repr

/-- The `TransformedPayload` record.  Optional TS fields are `Option`s;
`metrics` is an opaque object reference (truthy iff present). -/
structure Payload where
  status : String
  generationId : Option String
  isConfirmed : Option Bool
  isTransient : Option Bool
  isSynthesizing : Option Bool
  isPolished : Option Bool
  requiresGeneration : Option Bool
  isMandatory : Option Bool
  generationAllowed : Option Bool
  previewUrl : Option String
  sourceReference : Option String
  sourceContainer : Option String
  targetContainer : Option String
  metrics : Option String
  layers : List Layer
  directives : Option (List String)
  deriving DecidableEq, Repr

/-- JS truthiness of an optional string field: `undefined` and the empty
string are falsy. -/
def strTruthy : Option String → Bool
  | none => false
  | some s => !(s == "")

/-- JS truthiness of an optional boolean field: only `true` is truthy. -/
def boolTruthy : Option Bool → Bool
  | some b => b
  | none => false

/-- JS `a || b` on optional string fields. -/
def strOr (a b : Option String) : Option String :=
  if strTruthy a then a else b

/-- JS `a || b` where `a` is an optional object field (an object is truthy
whenever present). -/
def objOr (a b : Option String) : Option String :=
  if a.isSome then a else b

/-- Models `id.startsWith('gen-layer-')` (the synthetic-additive id test of
line 102). -/
def isSyntheticId (s : String) : Bool :=
  "gen-layer-".data.isPrefixOf s.data

/-- Lexicographic comparison of character lists: the first differing
character decides, a proper prefix is smaller.  This is the order JS `<`
uses on strings (code-unit by code-unit). -/
def charListLt : List Char → List Char → Bool
  | [], [] => false
  | [], _ :: _ => true
  | _ :: _, [] => false
  | a :: as, b :: bs => if a < b then true else if b < a then false else charListLt as bs

/-- JS string `<`, as used on `generationId` tokens by the stale guard
(line 130). -/
def genLt (a b : String) : Bool := charListLt a.data b.data

/-- The mandatory auto-confirmation condition of lines 109-112:
`(incoming.isMandatory || incoming.directives?.includes('MANDATORY_GEN_FILL'))
&& incoming.requiresGeneration`. -/
def isForcedGen (p : Payload) : Bool :=
  (boolTruthy p.isMandatory || (p.directives.getD []).contains "MANDATORY_GEN_FILL") &&
    boolTruthy p.requiresGeneration

/-- Embedding of `reconcileTerminalState` (lines 62-193).  The rules appear
in source order: reset, hard-stop gate, mandatory auto-confirm, stale guard,
idle sanitation, synthesis start, geometric preservation, final
construction.  The `isConfirmed` computation of lines 163-168 is inlined
into the final-construction record (it is only used there).  JS string `<`
is the lexicographic order on strings. -/
def reconcileTerminalState (incomingPayload : Payload) (currentPayload : Option Payload) :
    Payload :=
  -- 0. RESET LOGIC (lines 69-80): `status === 'idle' && !generationId`
  if incomingPayload.status = "idle" ∧ strTruthy incomingPayload.generationId = false then
    { incomingPayload with
      previewUrl := none, isConfirmed := some false, isTransient := some false,
      isSynthesizing := some false, isPolished := some false,
      requiresGeneration := some false, sourceReference := none }
  -- 1. GENERATIVE LOGIC GATE (lines 86-105): `generationAllowed === false`
  else if incomingPayload.generationAllowed = some false then
    { incomingPayload with
      previewUrl := none, isConfirmed := some false, isTransient := some false,
      isSynthesizing := some false, requiresGeneration := some false,
      metrics := incomingPayload.metrics,
      layers := incomingPayload.layers.filter fun l =>
        !(l.type == "generative") || (!(l.id == "") && !(isSyntheticId l.id)) }
  -- MANDATORY AUTO-CONFIRMATION (lines 109-125)
  else if isForcedGen incomingPayload = true then
    { incomingPayload with
      status := "success", isConfirmed := some true, isTransient := some false,
      isSynthesizing := incomingPayload.isSynthesizing,
      previewUrl := strOr incomingPayload.previewUrl (currentPayload.bind Payload.previewUrl),
      sourceReference :=
        strOr incomingPayload.sourceReference (currentPayload.bind Payload.sourceReference),
      generationId :=
        strOr incomingPayload.generationId (currentPayload.bind Payload.generationId) }
  -- 2. STALE GUARD (lines 127-132)
  else if strTruthy (currentPayload.bind Payload.generationId) = true ∧
      strTruthy incomingPayload.generationId = true ∧
      genLt (incomingPayload.generationId.getD "")
        ((currentPayload.bind Payload.generationId).getD "") = true then
    -- the guard condition forces `currentPayload` to be present
    currentPayload.getD incomingPayload
  -- 3. SANITATION (lines 136-144)
  else if incomingPayload.status = "idle" then
    { incomingPayload with
      previewUrl := none, isConfirmed := some false, isTransient := some false,
      isSynthesizing := some false }
  -- 4. FLUSH PHASE (lines 147-159): seeded from `currentPayload || incomingPayload`
  else if boolTruthy incomingPayload.isSynthesizing = true then
    { currentPayload.getD incomingPayload with
      isSynthesizing := some true,
      previewUrl := currentPayload.bind Payload.previewUrl,
      sourceReference :=
        strOr incomingPayload.sourceReference (currentPayload.bind Payload.sourceReference),
      targetContainer :=
        strOr (strOr incomingPayload.targetContainer (currentPayload.bind Payload.targetContainer))
          (some ""),
      metrics := objOr incomingPayload.metrics (currentPayload.bind Payload.metrics),
      generationId := currentPayload.bind Payload.generationId,
      generationAllowed := some true }
  -- 6. GEOMETRIC PRESERVATION (lines 172-183)
  else if strTruthy incomingPayload.generationId = false ∧
      strTruthy (currentPayload.bind Payload.generationId) = true then
    { incomingPayload with
      previewUrl := currentPayload.bind Payload.previewUrl,
      generationId := currentPayload.bind Payload.generationId,
      isSynthesizing := currentPayload.bind Payload.isSynthesizing,
      isConfirmed := currentPayload.bind Payload.isConfirmed,
      isTransient := currentPayload.bind Payload.isTransient,
      sourceReference :=
        strOr (currentPayload.bind Payload.sourceReference) incomingPayload.sourceReference,
      generationAllowed := some true }
  -- 7. FINAL CONSTRUCTION (lines 186-192) with the rule-5 confirmation
  -- computation (lines 163-168) inlined
  else
    { incomingPayload with
      isConfirmed := some (if boolTruthy incomingPayload.isTransient then false
        else incomingPayload.isConfirmed.getD
          ((currentPayload.bind Payload.isConfirmed).getD false)),
      sourceReference :=
        strOr incomingPayload.sourceReference (currentPayload.bind Payload.sourceReference),
      generationId :=
        strOr incomingPayload.generationId (currentPayload.bind Payload.generationId),
      generationAllowed := some true }

/-- A plain sample payload used as a base for concrete test inputs. -/
def basePayload : Payload :=
  { status := "success", generationId := none, isConfirmed := none, isTransient := none,
    isSynthesizing := none, isPolished := none, requiresGeneration := none, isMandatory := none,
    generationAllowed := some true, previewUrl := none, sourceReference := none,
    sourceContainer := none, targetContainer := none, metrics := none, layers := [],
    directives := none }

/-! ## The registry store

`ProceduralState` embeds the nine registries plus `globalVersion`
(lines 5-38, 195-205).  A slot-scoped registry `Record<string,
Record<string, T>>` is modelled at lookup level as a function
`NodeId → SlotId → Option T`; the opaque value types (`Psd`,
`TemplateMetadata`, `MappingContext`, `LayoutStrategy`, `FeedbackStrategy`,
`KnowledgeContext`, base64 preview strings) are modelled as `String`
handles compared structurally, matching the store's
`JSON.stringify`-equality checks. -/

abbrev NodeId := String

abbrev SlotId := String

/-- State of the procedural store. -/
structure ProceduralState where
  psdRegistry : NodeId → Option String
  templateRegistry : NodeId → Option String
  resolvedRegistry : NodeId → SlotId → Option String
  payloadRegistry : NodeId → SlotId → Option Payload
  reviewerRegistry : NodeId → SlotId → Option Payload
  previewRegistry : NodeId → SlotId → Option String
  analysisRegistry : NodeId → SlotId → Option String
  feedbackRegistry : NodeId → SlotId → Option String
  knowledgeRegistry : NodeId → Option String
  globalVersion : Nat

/-- The store's initial state (lines 196-205): all registries empty,
`globalVersion = 0`. -/
def initState : ProceduralState :=
  { psdRegistry := fun _ => none, templateRegistry := fun _ => none,
    resolvedRegistry := fun _ _ => none, payloadRegistry := fun _ _ => none,
    reviewerRegistry := fun _ _ => none, previewRegistry := fun _ _ => none,
    analysisRegistry := fun _ _ => none, feedbackRegistry := fun _ _ => none,
    knowledgeRegistry := fun _ => none, globalVersion := 0 }

/-- Write one node-scoped entry: `{ ...prev, [nodeId]: v }`. -/
def setNode {α : Type} (r : NodeId → Option α) (n : NodeId) (v : α) : NodeId → Option α :=
  fun k => if k = n then some v else r k

/-- Remove one node-scoped entry: `const { [nodeId]: _, ...rest } = prev`. -/
def dropNode {α : Type} (r : NodeId → Option α) (n : NodeId) : NodeId → Option α :=
  fun k => if k = n then none else r k

/-- Write one slot-scoped entry:
`{ ...prev, [nodeId]: { ...nodeRecord, [handleId]: v } }`. -/
def setSlot {α : Type} (r : NodeId → SlotId → Option α) (n : NodeId) (h : SlotId) (v : α) :
    NodeId → SlotId → Option α :=
  fun k s => if k = n ∧ s = h then some v else r k s

/-- Remove every slot of one node (used by `unregisterNode`). -/
def dropNodeSlots {α : Type} (r : NodeId → SlotId → Option α) (n : NodeId) :
    NodeId → SlotId → Option α :=
  fun k s => if k = n then none else r k s

/-- Remove one slot entry: `const { [handleId]: _, ...restHandles } = prev[nodeId]`
(used by `flushPipelineInstance` and `clearFeedback`). -/
def dropSlot {α : Type} (r : NodeId → SlotId → Option α) (n : NodeId) (h : SlotId) :
    NodeId → SlotId → Option α :=
  fun k s => if k = n ∧ s = h then none else r k s

/-! Each writer returns the new state together with a `Bool` change signal:
`true` when the `useState` updater built a fresh object, `false` when it
returned `prev` (the write was skipped). -/

/-- `registerPsd` (lines 207-209): unconditional spread-write, with no
equality check before writing. -/
def registerPsd (st : ProceduralState) (nodeId : NodeId) (psd : String) :
    ProceduralState × Bool :=
  ({ st with psdRegistry := setNode st.psdRegistry nodeId psd }, true)

/-- `registerTemplate` (lines 211-217): skip when the stored value is
referentially or JSON-equal to the supplied one. -/
def registerTemplate (st : ProceduralState) (nodeId : NodeId) (template : String) :
    ProceduralState × Bool :=
  if st.templateRegistry nodeId = some template then (st, false)
  else ({ st with templateRegistry := setNode st.templateRegistry nodeId template }, true)

/-- `registerResolved` (lines 219-234): skip when equal. -/
def registerResolved (st : ProceduralState) (nodeId : NodeId) (handleId : SlotId)
    (context : String) : ProceduralState × Bool :=
  if st.resolvedRegistry nodeId handleId = some context then (st, false)
  else ({ st with
    resolvedRegistry := setSlot st.resolvedRegistry nodeId handleId context }, true)

/-- Phase 4A master-override of `registerPayload` (lines 241-246):
`masterOverride === false` forces `generationAllowed = false` on the input. -/
def effectiveRegisterPayload (payload : Payload) (masterOverride : Option Bool) : Payload :=
  if masterOverride = some false then { payload with generationAllowed := some false }
  else payload

/-- `registerPayload` (lines 236-264): apply the master override, reconcile
against the current slot value, then skip iff a current value exists and is
structurally equal to the reconciled one. -/
def registerPayload (st : ProceduralState) (nodeId : NodeId) (handleId : SlotId)
    (payload : Payload) (masterOverride : Option Bool) : ProceduralState × Bool :=
  if st.payloadRegistry nodeId handleId =
      some (reconcileTerminalState (effectiveRegisterPayload payload masterOverride)
        (st.payloadRegistry nodeId handleId)) then
    (st, false)
  else
    ({ st with payloadRegistry := (setSlot st.payloadRegistry nodeId handleId
        (reconcileTerminalState (effectiveRegisterPayload payload masterOverride)
          (st.payloadRegistry nodeId handleId))) }, true)

/-- Shared body of the two ReviewerRegistry writers (lines 266-293 and
308-330): reconcile the already-gated payload against the current entry,
skip iff the current entry exists and equals the reconciled value. -/
def reviewerWrite (st : ProceduralState) (nodeId : NodeId) (handleId : SlotId)
    (effectivePayload : Payload) : ProceduralState × Bool :=
  if st.reviewerRegistry nodeId handleId =
      some (reconcileTerminalState effectivePayload (st.reviewerRegistry nodeId handleId)) then
    (st, false)
  else
    ({ st with reviewerRegistry := (setSlot st.reviewerRegistry nodeId handleId
        (reconcileTerminalState effectivePayload (st.reviewerRegistry nodeId handleId))) }, true)

/-- `registerReviewerPayload` (lines 266-293): force `isPolished = true`
on the input, then write through `reviewerWrite`. -/
def registerReviewerPayload (st : ProceduralState) (nodeId : NodeId) (handleId : SlotId)
    (payload : Payload) : ProceduralState × Bool :=
  reviewerWrite st nodeId handleId { payload with isPolished := some true }

/-- The PreviewRegistry half of `registerPreviewPayload` (lines 297-304):
store the render url, skipping when unchanged. -/
def previewStorePart (st : ProceduralState) (nodeId : NodeId) (handleId : SlotId)
    (renderUrl : String) : ProceduralState × Bool :=
  if st.previewRegistry nodeId handleId = some renderUrl then (st, false)
  else ({ st with
    previewRegistry := setSlot st.previewRegistry nodeId handleId renderUrl }, true)

/-- `registerPreviewPayload` (lines 295-331): store the render in
PreviewRegistry, then proxy the payload (with `isPolished` forced) into
ReviewerRegistry.  Results: (state, previewChanged, reviewerChanged). -/
def registerPreviewPayload (st : ProceduralState) (nodeId : NodeId) (handleId : SlotId)
    (payload : Payload) (renderUrl : String) : ProceduralState × Bool × Bool :=
  ((reviewerWrite (previewStorePart st nodeId handleId renderUrl).1 nodeId handleId
      { payload with isPolished := some true }).1,
   (previewStorePart st nodeId handleId renderUrl).2,
   (reviewerWrite (previewStorePart st nodeId handleId renderUrl).1 nodeId handleId
      { payload with isPolished := some true }).2)

/-- A `Partial<TransformedPayload>`: a present outer `some` means the key
is present in the partial object (even when its value is `undefined`, since
JS object spread copies present keys unconditionally). -/
structure PartialPayload where
  status : Option String
  generationId : Option (Option String)
  isConfirmed : Option (Option Bool)
  isTransient : Option (Option Bool)
  isSynthesizing : Option (Option Bool)
  isPolished : Option (Option Bool)
  requiresGeneration : Option (Option Bool)
  isMandatory : Option (Option Bool)
  generationAllowed : Option (Option Bool)
  previewUrl : Option (Option String)
  sourceReference : Option (Option String)
  sourceContainer : Option (Option String)
  targetContainer : Option (Option String)
  metrics : Option (Option String)
  layers : Option (List Layer)
  directives : Option (Option (List String))
  deriving DecidableEq, Repr

/-- JS `{ ...currentPayload, ...partial }`. -/
def mergePayload (cur : Payload) (p : PartialPayload) : Payload :=
  { status := p.status.getD cur.status,
    generationId := p.generationId.getD cur.generationId,
    isConfirmed := p.isConfirmed.getD cur.isConfirmed,
    isTransient := p.isTransient.getD cur.isTransient,
    isSynthesizing := p.isSynthesizing.getD cur.isSynthesizing,
    isPolished := p.isPolished.getD cur.isPolished,
    requiresGeneration := p.requiresGeneration.getD cur.requiresGeneration,
    isMandatory := p.isMandatory.getD cur.isMandatory,
    generationAllowed := p.generationAllowed.getD cur.generationAllowed,
    previewUrl := p.previewUrl.getD cur.previewUrl,
    sourceReference := p.sourceReference.getD cur.sourceReference,
    sourceContainer := p.sourceContainer.getD cur.sourceContainer,
    targetContainer := p.targetContainer.getD cur.targetContainer,
    metrics := p.metrics.getD cur.metrics,
    layers := p.layers.getD cur.layers,
    directives := p.directives.getD cur.directives }

/-- A payload whose every field reads as absent.  Target of the
`partial as TransformedPayload` cast of line 345: fields the partial does
not carry read as `undefined` there; absent `status` is modelled as the
(never-matching) empty string and absent `layers` as the empty list. -/
def emptyPayload : Payload :=
  { status := "", generationId := none, isConfirmed := none, isTransient := none,
    isSynthesizing := none, isPolished := none, requiresGeneration := none,
    isMandatory := none, generationAllowed := none, previewUrl := none,
    sourceReference := none, sourceContainer := none, targetContainer := none,
    metrics := none, layers := [], directives := none }

/-- The merge candidate of `updatePayload` (lines 343-345). -/
def mergedOf (cur : Option Payload) (p : PartialPayload) : Payload :=
  match cur with
  | some c => mergePayload c p
  | none => mergePayload emptyPayload p

/-- `updatePayload` (lines 334-360): no-op when no current payload exists
and the partial carries neither a source container nor a preview url;
otherwise reconcile the merged candidate and skip iff a current value
exists and equals the reconciled one. -/
def updatePayload (st : ProceduralState) (nodeId : NodeId) (handleId : SlotId)
    (p : PartialPayload) : ProceduralState × Bool :=
  if st.payloadRegistry nodeId handleId = none ∧
      strTruthy p.sourceContainer.join = false ∧ strTruthy p.previewUrl.join = false then
    (st, false)
  else if st.payloadRegistry nodeId handleId =
      some (reconcileTerminalState (mergedOf (st.payloadRegistry nodeId handleId) p)
        (st.payloadRegistry nodeId handleId)) then
    (st, false)
  else
    ({ st with payloadRegistry := (setSlot st.payloadRegistry nodeId handleId
        (reconcileTerminalState (mergedOf (st.payloadRegistry nodeId handleId) p)
          (st.payloadRegistry nodeId handleId))) }, true)

/-- `registerAnalysis` (lines 362-378): skip when equal. -/
def registerAnalysis (st : ProceduralState) (nodeId : NodeId) (handleId : SlotId)
    (strategy : String) : ProceduralState × Bool :=
  if st.analysisRegistry nodeId handleId = some strategy then (st, false)
  else ({ st with
    analysisRegistry := setSlot st.analysisRegistry nodeId handleId strategy }, true)

/-- `registerFeedback` (lines 381-397): skip when equal. -/
def registerFeedback (st : ProceduralState) (nodeId : NodeId) (handleId : SlotId)
    (strategy : String) : ProceduralState × Bool :=
  if st.feedbackRegistry nodeId handleId = some strategy then (st, false)
  else ({ st with
    feedbackRegistry := setSlot st.feedbackRegistry nodeId handleId strategy }, true)

/-- `clearFeedback` (lines 399-411): remove one feedback entry, no-op when
absent. -/
def clearFeedback (st : ProceduralState) (nodeId : NodeId) (handleId : SlotId) :
    ProceduralState × Bool :=
  match st.feedbackRegistry nodeId handleId with
  | none => (st, false)
  | some _ =>
    ({ st with feedbackRegistry := dropSlot st.feedbackRegistry nodeId handleId }, true)

/-- `registerKnowledge` (lines 413-419): skip when equal. -/
def registerKnowledge (st : ProceduralState) (nodeId : NodeId) (context : String) :
    ProceduralState × Bool :=
  if st.knowledgeRegistry nodeId = some context then (st, false)
  else ({ st with knowledgeRegistry := setNode st.knowledgeRegistry nodeId context }, true)

/-- `updatePreview` (lines 421-442): directly overwrite the `previewUrl`
field of the stored payload, bypassing `reconcileTerminalState`; no-op when
no payload is stored or the url is unchanged. -/
def updatePreview (st : ProceduralState) (nodeId : NodeId) (handleId : SlotId)
    (url : String) : ProceduralState × Bool :=
  match st.payloadRegistry nodeId handleId with
  | none => (st, false)
  | some currentPayload =>
    if currentPayload.previewUrl = some url then (st, false)
    else
      ({ st with payloadRegistry := (setSlot st.payloadRegistry nodeId handleId
          { currentPayload with previewUrl := some url }) }, true)

/-- `unregisterNode` (lines 444-466): remove the node from every registry
and increment `globalVersion` once. -/
def unregisterNode (st : ProceduralState) (nodeId : NodeId) : ProceduralState :=
  { psdRegistry := dropNode st.psdRegistry nodeId,
    templateRegistry := dropNode st.templateRegistry nodeId,
    resolvedRegistry := dropNodeSlots st.resolvedRegistry nodeId,
    payloadRegistry := dropNodeSlots st.payloadRegistry nodeId,
    reviewerRegistry := dropNodeSlots st.reviewerRegistry nodeId,
    previewRegistry := dropNodeSlots st.previewRegistry nodeId,
    analysisRegistry := dropNodeSlots st.analysisRegistry nodeId,
    feedbackRegistry := dropNodeSlots st.feedbackRegistry nodeId,
    knowledgeRegistry := dropNode st.knowledgeRegistry nodeId,
    globalVersion := st.globalVersion + 1 }

/-- `flushPipelineInstance` (lines 470-493): clear one (node, slot) entry
from the six slot-scoped registries; node-scoped registries and
`globalVersion` untouched. -/
def flushPipelineInstance (st : ProceduralState) (nodeId : NodeId) (handleId : SlotId) :
    ProceduralState :=
  { st with
    resolvedRegistry := dropSlot st.resolvedRegistry nodeId handleId,
    payloadRegistry := dropSlot st.payloadRegistry nodeId handleId,
    reviewerRegistry := dropSlot st.reviewerRegistry nodeId handleId,
    previewRegistry := dropSlot st.previewRegistry nodeId handleId,
    analysisRegistry := dropSlot st.analysisRegistry nodeId handleId,
    feedbackRegistry := dropSlot st.feedbackRegistry nodeId handleId }

/-- `triggerGlobalRefresh` (lines 495-497). -/
def triggerGlobalRefresh (st : ProceduralState) : ProceduralState :=
  { st with globalVersion := st.globalVersion + 1 }

/-- One store operation, with arbitrary arguments. -/
inductive Step : ProceduralState → ProceduralState → Prop
  | regPsd (st : ProceduralState) (n : NodeId) (p : String) :
      Step st (registerPsd st n p).1
  | regTemplate (st : ProceduralState) (n : NodeId) (t : String) :
      Step st (registerTemplate st n t).1
  | regResolved (st : ProceduralState) (n : NodeId) (h : SlotId) (c : String) :
      Step st (registerResolved st n h c).1
  | regPayload (st : ProceduralState) (n : NodeId) (h : SlotId) (p : Payload)
      (mo : Option Bool) : Step st (registerPayload st n h p mo).1
  | regReviewer (st : ProceduralState) (n : NodeId) (h : SlotId) (p : Payload) :
      Step st (registerReviewerPayload st n h p).1
  | regPreview (st : ProceduralState) (n : NodeId) (h : SlotId) (p : Payload) (u : String) :
      Step st (registerPreviewPayload st n h p u).1
  | updPayload (st : ProceduralState) (n : NodeId) (h : SlotId) (p : PartialPayload) :
      Step st (updatePayload st n h p).1
  | regAnalysis (st : ProceduralState) (n : NodeId) (h : SlotId) (a : String) :
      Step st (registerAnalysis st n h a).1
  | regFeedback (st : ProceduralState) (n : NodeId) (h : SlotId) (f : String) :
      Step st (registerFeedback st n h f).1
  | clrFeedback (st : ProceduralState) (n : NodeId) (h : SlotId) :
      Step st (clearFeedback st n h).1
  | regKnowledge (st : ProceduralState) (n : NodeId) (c : String) :
      Step st (registerKnowledge st n c).1
  | updPreview (st : ProceduralState) (n : NodeId) (h : SlotId) (u : String) :
      Step st (updatePreview st n h u).1
  | unregister (st : ProceduralState) (n : NodeId) : Step st (unregisterNode st n)
  | flush (st : ProceduralState) (n : NodeId) (h : SlotId) :
      Step st (flushPipelineInstance st n h)
  | refresh (st : ProceduralState) : Step st (triggerGlobalRefresh st)

/-- States reachable from the initial store state. -/
inductive Reachable : ProceduralState → Prop
  | init : Reachable initState
  | step {st st2 : ProceduralState} : Reachable st → Step st st2 → Reachable st2

/-! ## Claim theorems -/

/-- The lexicographic comparison is irreflexive. -/
lemma charListLt_irrefl : ∀ l : List Char, charListLt l l = false
  | [] => rfl
  | a :: as => by
    unfold charListLt
    rw [if_neg (lt_irrefl a), if_neg (lt_irrefl a)]
    exact charListLt_irrefl as

/-- `genLt` is irreflexive. -/
lemma genLt_irrefl (s : String) : genLt s s = false :=
  charListLt_irrefl s.data

/-- C1 counterexample: the claim asserts stale rejection with *no further
hypothesis* on incoming's other fields, but the hard-stop gate is checked
before the stale guard: an incoming payload with `generationAllowed =
false` and a strictly older generationId is not rejected — the gate
rewrites it instead of returning `current`. -/
theorem C1_counterexample :
    ({ basePayload with generationId := some "a", generationAllowed := some false }
      : Payload).generationId = some "a" ∧
    ({ basePayload with generationId := some "b" } : Payload).generationId = some "b" ∧
    genLt "a" "b" = true ∧
    reconcileTerminalState
        { basePayload with generationId := some "a", generationAllowed := some false }
        (some { basePayload with generationId := some "b" }) ≠
      { basePayload with generationId := some "b" } :=
  ⟨rfl, rfl, by decide, by decide⟩

/-- C1 (corrected): stale rejection holds once the earlier rules are
excluded — if both generationIds are present (truthy), incoming's is
strictly less in the stale-guard (lexicographic) order, incoming does not
have `generationAllowed = false`, and incoming does not match the mandatory
auto-confirmation condition, then `reconcile(incoming, current)` returns
`current` unchanged.  (The reset rule cannot fire since incoming's
generationId is truthy.) -/
theorem C1_stale_rejection (incoming current : Payload)
    (hcur : strTruthy current.generationId = true)
    (hinc : strTruthy incoming.generationId = true)
    (hlt : genLt (incoming.generationId.getD "") (current.generationId.getD "") = true)
    (hgate : incoming.generationAllowed ≠ some false)
    (hforced : isForcedGen incoming = false) :
    reconcileTerminalState incoming (some current) = current := by
  have h0 : ¬ (incoming.status = "idle" ∧ strTruthy incoming.generationId = false) := by
    rintro ⟨h1, h2⟩
    rw [hinc] at h2
    cases h2
  have hf : ¬ isForcedGen incoming = true := by simp [hforced]
  have hguard : strTruthy ((some current).bind Payload.generationId) = true ∧
      strTruthy incoming.generationId = true ∧
      genLt (incoming.generationId.getD "")
        (((some current).bind Payload.generationId).getD "") = true :=
    ⟨hcur, hinc, hlt⟩
  unfold reconcileTerminalState
  rw [if_neg h0, if_neg hgate, if_neg hf, if_pos hguard]
  rfl

/-- Witness for C1's amended stale rejection at concrete tokens g1 < g2. -/
theorem C1_stale_rejection_witness :
    strTruthy ({ basePayload with generationId := some "g1" } : Payload).generationId = true ∧
    genLt "g1" "g2" = true ∧
    reconcileTerminalState { basePayload with generationId := some "g1" }
        (some { basePayload with generationId := some "g2", previewUrl := some "pic" }) =
      { basePayload with generationId := some "g2", previewUrl := some "pic" } :=
  ⟨by decide, by decide,
   C1_stale_rejection { basePayload with generationId := some "g1" }
     { basePayload with generationId := some "g2", previewUrl := some "pic" }
     (by decide) (by decide) (by decide) (by decide) (by decide)⟩

/-- C10 counterexample: the claim says that whenever both generationIds are
present, the write is rejected *exactly* when incoming's token is
lexicographically less; but with `generationAllowed = false` the hard-stop
gate fires before the guard, so a lexicographically-less incoming is not
rejected (the result is not `current`). -/
theorem C10_counterexample :
    ({ basePayload with generationId := some "05", generationAllowed := some false }
      : Payload).generationId = some "05" ∧
    ({ basePayload with generationId := some "1" } : Payload).generationId = some "1" ∧
    genLt "05" "1" = true ∧
    reconcileTerminalState
        { basePayload with generationId := some "05", generationAllowed := some false }
        (some { basePayload with generationId := some "1" }) ≠
      { basePayload with generationId := some "1" } := by
  decide

/-- C10 (corrected): when the stale guard is reached, generationId tokens
are compared by lexicographic string ordering (`genLt`), not numerically:
incoming "10" against current "9" is rejected (the result is `current`)
because "10" precedes "9" lexicographically although it is numerically
newer, while incoming "2" against current "10" is accepted (the result
carries incoming's token) although it is numerically older. -/
theorem C10_lexicographic_guard :
    genLt "10" "9" = true ∧ genLt "2" "10" = false ∧
    reconcileTerminalState { basePayload with generationId := some "10" }
        (some { basePayload with generationId := some "9" }) =
      { basePayload with generationId := some "9" } ∧
    (reconcileTerminalState { basePayload with generationId := some "2" }
        (some { basePayload with generationId := some "10" })).generationId = some "2" := by
  decide

/-- Core monotonicity of the reconciliation engine: when the incoming
payload is not caught by the hard-stop gate or the mandatory
auto-confirmation, and the current payload carries a truthy generationId,
the reconciled result's generationId (when truthy) is never strictly less
than the current one in the stale-guard order. -/
lemma reconcile_gen_mono (inc cur : Payload)
    (hgate : inc.generationAllowed ≠ some false)
    (hforced : isForcedGen inc = false)
    (hold : strTruthy cur.generationId = true) :
    strTruthy (reconcileTerminalState inc (some cur)).generationId = true →
    genLt ((reconcileTerminalState inc (some cur)).generationId.getD "")
      (cur.generationId.getD "") = false := by
  have hf : ¬ isForcedGen inc = true := by simp [hforced]
  unfold reconcileTerminalState
  by_cases h0 : inc.status = "idle" ∧ strTruthy inc.generationId = false
  · -- rule 0: result generationId is incoming's falsy one
    rw [if_pos h0]
    intro hnew
    have hx : strTruthy inc.generationId = true := hnew
    rw [h0.2] at hx
    cases hx
  rw [if_neg h0, if_neg hgate, if_neg hf]
  by_cases hsg : strTruthy ((some cur).bind Payload.generationId) = true ∧
      strTruthy inc.generationId = true ∧
      genLt (inc.generationId.getD "") (((some cur).bind Payload.generationId).getD "") = true
  · -- stale guard fired: result is current itself
    rw [if_pos hsg]
    intro _
    show genLt (cur.generationId.getD "") (cur.generationId.getD "") = false
    exact genLt_irrefl _
  rw [if_neg hsg]
  by_cases h3 : inc.status = "idle"
  · -- idle sanitation: result carries incoming's (truthy) generationId,
    -- and the failed guard condition rules out a strictly smaller one
    rw [if_pos h3]
    intro hnew
    have hx : strTruthy inc.generationId = true := hnew
    show genLt (inc.generationId.getD "") (cur.generationId.getD "") = false
    cases hb : genLt (inc.generationId.getD "") (cur.generationId.getD "")
    · rfl
    · exact absurd ⟨hold, hx, hb⟩ hsg
  rw [if_neg h3]
  by_cases h4 : boolTruthy inc.isSynthesizing = true
  · -- synthesis start: result keeps current's generationId
    rw [if_pos h4]
    intro _
    show genLt (cur.generationId.getD "") (cur.generationId.getD "") = false
    exact genLt_irrefl _
  rw [if_neg h4]
  by_cases h6 : strTruthy inc.generationId = false ∧
      strTruthy ((some cur).bind Payload.generationId) = true
  · -- geometric preservation: result keeps current's generationId
    rw [if_pos h6]
    intro _
    show genLt (cur.generationId.getD "") (cur.generationId.getD "") = false
    exact genLt_irrefl _
  rw [if_neg h6]
  -- final construction: generationId is incoming's if truthy, else current's
  intro _
  show genLt ((strOr inc.generationId cur.generationId).getD "")
    (cur.generationId.getD "") = false
  by_cases hti : strTruthy inc.generationId = true
  · rw [strOr, if_pos hti]
    cases hb : genLt (inc.generationId.getD "") (cur.generationId.getD "")
    · rfl
    · exact absurd ⟨hold, hti, hb⟩ hsg
  · rw [strOr, if_neg hti]
    exact genLt_irrefl _

/-- C3 counterexample: a slot of PayloadRegistry holding generationId "b"
accepts a write carrying the strictly smaller generationId "a" when the
incoming payload has `generationAllowed = false` — the hard-stop gate
rewrites the slot without consulting the stale guard, so the stored
generationId sequence is not non-decreasing. -/
theorem C3_counterexample :
    ((registerPayload initState "n" "h" { basePayload with generationId := some "b" }
        none).1.payloadRegistry "n" "h").map Payload.generationId = some (some "b") ∧
    (((registerPayload
        (registerPayload initState "n" "h" { basePayload with generationId := some "b" }
          none).1
        "n" "h"
        { basePayload with generationId := some "a", generationAllowed := some false }
        none).1.payloadRegistry "n" "h").map Payload.generationId = some (some "a")) ∧
    genLt "a" "b" = true := by
  decide

/-- C3 (corrected): a PayloadRegistry write step never strictly decreases a
present (truthy) stored generationId, *provided* the effective incoming
payload neither has `generationAllowed = false` nor matches the mandatory
auto-confirmation condition (the two rules evaluated before the stale
guard); `updatePreview` steps never change the stored generationId at
all. -/
theorem C3_generation_monotone :
    (∀ (st : ProceduralState) (n : NodeId) (s : SlotId) (p : Payload) (mo : Option Bool)
        (old new : Payload),
      (effectiveRegisterPayload p mo).generationAllowed ≠ some false →
      isForcedGen (effectiveRegisterPayload p mo) = false →
      st.payloadRegistry n s = some old →
      (registerPayload st n s p mo).1.payloadRegistry n s = some new →
      strTruthy old.generationId = true → strTruthy new.generationId = true →
      genLt (new.generationId.getD "") (old.generationId.getD "") = false) ∧
    (∀ (st : ProceduralState) (n : NodeId) (s : SlotId) (q : PartialPayload)
        (old new : Payload),
      (mergedOf (st.payloadRegistry n s) q).generationAllowed ≠ some false →
      isForcedGen (mergedOf (st.payloadRegistry n s) q) = false →
      st.payloadRegistry n s = some old →
      (updatePayload st n s q).1.payloadRegistry n s = some new →
      strTruthy old.generationId = true → strTruthy new.generationId = true →
      genLt (new.generationId.getD "") (old.generationId.getD "") = false) ∧
    (∀ (st : ProceduralState) (n : NodeId) (s : SlotId) (u : String) (old new : Payload),
      st.payloadRegistry n s = some old →
      (updatePreview st n s u).1.payloadRegistry n s = some new →
      new.generationId = old.generationId) := by
  refine ⟨?_, ?_, ?_⟩
  · intro st n s p mo old new hgate hforced hcur hnew hold hnewt
    unfold registerPayload at hnew
    split_ifs at hnew with hskip
    · have hnew2 : st.payloadRegistry n s = some new := hnew
      rw [hcur] at hnew2
      cases Option.some.inj hnew2
      exact genLt_irrefl _
    · have hnew2 : setSlot st.payloadRegistry n s
          (reconcileTerminalState (effectiveRegisterPayload p mo)
            (st.payloadRegistry n s)) n s = some new := hnew
      simp only [setSlot, and_self, if_true, Option.some.injEq] at hnew2
      cases hnew2
      rw [hcur] at hnewt ⊢
      exact reconcile_gen_mono _ old hgate hforced hold hnewt
  · intro st n s q old new hgate hforced hcur hnew hold hnewt
    unfold updatePayload at hnew
    split_ifs at hnew with hnone hskip
    · have hnew2 : st.payloadRegistry n s = some new := hnew
      rw [hcur] at hnew2
      cases Option.some.inj hnew2
      exact genLt_irrefl _
    · have hnew2 : st.payloadRegistry n s = some new := hnew
      rw [hcur] at hnew2
      cases Option.some.inj hnew2
      exact genLt_irrefl _
    · have hnew2 : setSlot st.payloadRegistry n s
          (reconcileTerminalState (mergedOf (st.payloadRegistry n s) q)
            (st.payloadRegistry n s)) n s = some new := hnew
      simp only [setSlot, and_self, if_true, Option.some.injEq] at hnew2
      cases hnew2
      rw [hcur] at hgate hforced hnewt ⊢
      exact reconcile_gen_mono _ old hgate hforced hold hnewt
  · intro st n s u old new hcur hnew
    unfold updatePreview at hnew
    simp only [hcur] at hnew
    split_ifs at hnew with hsame
    · have hnew2 : st.payloadRegistry n s = some new := hnew
      rw [hcur] at hnew2
      cases Option.some.inj hnew2
      rfl
    · have hnew2 : setSlot st.payloadRegistry n s
          { old with previewUrl := some u } n s = some new := hnew
      simp only [setSlot, and_self, if_true, Option.some.injEq] at hnew2
      cases hnew2
      rfl

/-- Witness for C3's amended monotonicity on concrete writes: the slot
holds generationId "b" and accepts "c" (not lexicographically smaller). -/
theorem C3_generation_monotone_witness :
    ((registerPayload initState "n" "h" { basePayload with generationId := some "b" }
        none).1.payloadRegistry "n" "h"
      = some { basePayload with generationId := some "b", isConfirmed := some false }) ∧
    genLt
      ((({ basePayload with generationId := some "c", isConfirmed := some false }
        : Payload).generationId).getD "")
      ((({ basePayload with generationId := some "b", isConfirmed := some false }
        : Payload).generationId).getD "") = false :=
  ⟨by decide,
   C3_generation_monotone.1
     (registerPayload initState "n" "h" { basePayload with generationId := some "b" } none).1
     "n" "h" { basePayload with generationId := some "c" } none
     { basePayload with generationId := some "b", isConfirmed := some false }
     { basePayload with generationId := some "c", isConfirmed := some false }
     (by decide) (by decide) (by decide) (by decide) (by decide) (by decide)⟩

/-- A payload triggering the mandatory auto-confirmation rule. -/
def mandIncoming : Payload :=
  { basePayload with
    status := "pending", isMandatory := some true, requiresGeneration := some true,
    generationAllowed := none }

/-- The value the store holds after registering `mandIncoming` on an empty
slot (the mandatory auto-confirmation output). -/
def mandStored : Payload :=
  { basePayload with
    isMandatory := some true, requiresGeneration := some true, generationAllowed := none,
    isConfirmed := some true, isTransient := some false }

/-- C4 counterexample: `updatePreview` edits the stored payload's
`previewUrl` directly.  From the reachable state holding `mandStored`,
`updatePreview` with the empty url produces a stored value that
`reconcileTerminalState` cannot produce from *any* incoming payload against
that current value — so the operation does not route through the
reconciliation engine. -/
theorem C4_counterexample :
    Reachable (updatePreview (registerPayload initState "n" "h" mandIncoming none).1
      "n" "h" "").1 ∧
    (registerPayload initState "n" "h" mandIncoming none).1.payloadRegistry "n" "h"
      = some mandStored ∧
    (updatePreview (registerPayload initState "n" "h" mandIncoming none).1
      "n" "h" "").1.payloadRegistry "n" "h" = some { mandStored with previewUrl := some "" } ∧
    ({ mandStored with previewUrl := some "" } : Payload) ≠ mandStored ∧
    ¬ ∃ inc : Payload,
      reconcileTerminalState inc (some mandStored) = { mandStored with previewUrl := some "" } := by
  refine ⟨?_, by decide, by decide, by decide, ?_⟩
  · exact Reachable.step
      (Reachable.step Reachable.init (Step.regPayload initState "n" "h" mandIncoming none))
      (Step.updPreview _ "n" "h" "")
  · rintro ⟨inc, hinc⟩
    unfold reconcileTerminalState at hinc
    by_cases h0 : inc.status = "idle" ∧ strTruthy inc.generationId = false
    · rw [if_pos h0] at hinc
      have hstat : inc.status = "success" := congrArg Payload.status hinc
      exact absurd (h0.1 ▸ hstat) (by decide)
    rw [if_neg h0] at hinc
    by_cases h1 : inc.generationAllowed = some false
    · rw [if_pos h1] at hinc
      have hga : inc.generationAllowed = none := congrArg Payload.generationAllowed hinc
      rw [h1] at hga
      cases hga
    rw [if_neg h1] at hinc
    by_cases hm : isForcedGen inc = true
    · rw [if_pos hm] at hinc
      have hpu : strOr inc.previewUrl none = some "" := congrArg Payload.previewUrl hinc
      rw [strOr] at hpu
      split_ifs at hpu with ht
      rw [hpu] at ht
      simp [strTruthy] at ht
    rw [if_neg hm] at hinc
    by_cases hsg : strTruthy ((some mandStored).bind Payload.generationId) = true ∧
        strTruthy inc.generationId = true ∧
        genLt (inc.generationId.getD "")
          (((some mandStored).bind Payload.generationId).getD "") = true
    · have hx : strTruthy (none : Option String) = true := hsg.1
      simp [strTruthy] at hx
    rw [if_neg hsg] at hinc
    by_cases h3 : inc.status = "idle"
    · rw [if_pos h3] at hinc
      have hstat : inc.status = "success" := congrArg Payload.status hinc
      exact absurd (h3 ▸ hstat) (by decide)
    rw [if_neg h3] at hinc
    by_cases h4 : boolTruthy inc.isSynthesizing = true
    · rw [if_pos h4] at hinc
      have hga : (some true : Option Bool) = none := congrArg Payload.generationAllowed hinc
      cases hga
    rw [if_neg h4] at hinc
    by_cases h6 : strTruthy inc.generationId = false ∧
        strTruthy ((some mandStored).bind Payload.generationId) = true
    · have hx : strTruthy (none : Option String) = true := h6.2
      simp [strTruthy] at hx
    rw [if_neg h6] at hinc
    have hga : (some true : Option Bool) = none := congrArg Payload.generationAllowed hinc
    cases hga

/-- Every `reviewerWrite` leaves the addressed slot holding exactly the
reconciled value. -/
lemma reviewerWrite_lookup (st : ProceduralState) (n : NodeId) (s : SlotId) (eff : Payload) :
    (reviewerWrite st n s eff).1.reviewerRegistry n s =
      some (reconcileTerminalState eff (st.reviewerRegistry n s)) := by
  unfold reviewerWrite
  split_ifs with hskip
  · exact hskip
  · simp [setSlot]

/-- The PreviewRegistry half of a preview registration does not touch
ReviewerRegistry. -/
lemma previewStorePart_reviewer (st : ProceduralState) (n : NodeId) (s : SlotId)
    (u : String) :
    (previewStorePart st n s u).1.reviewerRegistry = st.reviewerRegistry := by
  unfold previewStorePart
  split_ifs <;> rfl

/-- C4 (corrected): every operation that changes a stored payload routes the
new value through the reconciliation engine — `registerPayload`,
`registerReviewerPayload`, `registerPreviewPayload` and `updatePayload` all
leave the addressed slot holding exactly the reconciled candidate — except
`updatePreview`, which edits the stored payload's `previewUrl` field
directly (the counterexample). -/
theorem C4_writes_route_through_reconcile :
    (∀ (st : ProceduralState) (n : NodeId) (s : SlotId) (p : Payload) (mo : Option Bool),
      (registerPayload st n s p mo).1.payloadRegistry n s =
        some (reconcileTerminalState (effectiveRegisterPayload p mo)
          (st.payloadRegistry n s))) ∧
    (∀ (st : ProceduralState) (n : NodeId) (s : SlotId) (p : Payload),
      (registerReviewerPayload st n s p).1.reviewerRegistry n s =
        some (reconcileTerminalState { p with isPolished := some true }
          (st.reviewerRegistry n s))) ∧
    (∀ (st : ProceduralState) (n : NodeId) (s : SlotId) (p : Payload) (u : String),
      (registerPreviewPayload st n s p u).1.reviewerRegistry n s =
        some (reconcileTerminalState { p with isPolished := some true }
          (st.reviewerRegistry n s))) ∧
    (∀ (st : ProceduralState) (n : NodeId) (s : SlotId) (q : PartialPayload) (cur : Payload),
      st.payloadRegistry n s = some cur →
      (updatePayload st n s q).1.payloadRegistry n s =
        some (reconcileTerminalState (mergePayload cur q) (some cur))) := by
  refine ⟨?_, ?_, ?_, ?_⟩
  · intro st n s p mo
    unfold registerPayload
    split_ifs with hskip
    · exact hskip
    · simp [setSlot]
  · intro st n s p
    exact reviewerWrite_lookup st n s _
  · intro st n s p u
    calc (registerPreviewPayload st n s p u).1.reviewerRegistry n s
        = (reviewerWrite (previewStorePart st n s u).1 n s
            { p with isPolished := some true }).1.reviewerRegistry n s := rfl
      _ = some (reconcileTerminalState { p with isPolished := some true }
            ((previewStorePart st n s u).1.reviewerRegistry n s)) :=
          reviewerWrite_lookup _ n s _
      _ = some (reconcileTerminalState { p with isPolished := some true }
            (st.reviewerRegistry n s)) := by rw [previewStorePart_reviewer]
  · intro st n s q cur hcur
    unfold updatePayload
    rw [hcur]
    have hnone : ¬ (some cur = none ∧ strTruthy q.sourceContainer.join = false ∧
        strTruthy q.previewUrl.join = false) := fun hc => Option.noConfusion hc.1
    rw [if_neg hnone]
    by_cases hskip : some cur
        = some (reconcileTerminalState (mergedOf (some cur) q) (some cur))
    · rw [if_pos hskip]
      show st.payloadRegistry n s
        = some (reconcileTerminalState (mergePayload cur q) (some cur))
      rw [hcur]
      exact hskip
    · rw [if_neg hskip]
      show setSlot st.payloadRegistry n s
          (reconcileTerminalState (mergedOf (some cur) q) (some cur)) n s
        = some (reconcileTerminalState (mergePayload cur q) (some cur))
      unfold setSlot
      rw [if_pos ⟨rfl, rfl⟩]
      rfl

/-- The all-absent partial payload (an empty JS object). -/
def emptyPartial : PartialPayload :=
  { status := none, generationId := none, isConfirmed := none, isTransient := none,
    isSynthesizing := none, isPolished := none, requiresGeneration := none,
    isMandatory := none, generationAllowed := none, previewUrl := none,
    sourceReference := none, sourceContainer := none, targetContainer := none,
    metrics := none, layers := none, directives := none }

/-- Witness for C4 on a concrete store: a `registerPayload` write and an
`updatePayload` merge both leave the slot holding the reconciled value. -/
theorem C4_writes_route_through_reconcile_witness :
    ((registerPayload initState "n" "h" mandIncoming none).1.payloadRegistry "n" "h" =
      some (reconcileTerminalState (effectiveRegisterPayload mandIncoming none)
        (initState.payloadRegistry "n" "h"))) ∧
    ((registerPayload initState "n" "h" mandIncoming none).1.payloadRegistry "n" "h"
      = some mandStored) ∧
    ((updatePayload (registerPayload initState "n" "h" mandIncoming none).1 "n" "h"
        emptyPartial).1.payloadRegistry "n" "h" =
      some (reconcileTerminalState (mergePayload mandStored emptyPartial)
        (some mandStored))) :=
  ⟨C4_writes_route_through_reconcile.1 initState "n" "h" mandIncoming none,
   by decide,
   C4_writes_route_through_reconcile.2.2.2
     (registerPayload initState "n" "h" mandIncoming none).1 "n" "h" emptyPartial
     mandStored (by decide)⟩

/-- C5 (confirmed): for every payload `incoming` with `status = idle` and no
`generationId`, and every `current` (present or absent), the reconciled
result has `previewUrl` absent, `isConfirmed = false`, `isTransient =
false`, `isSynthesizing = false`, `isPolished = false`,
`requiresGeneration = false`, `sourceReference` absent, and every other
field equal to incoming's; `current` does not influence the result. -/
theorem C5_reset_property (incoming : Payload) (current : Option Payload)
    (hstatus : incoming.status = "idle") (hgen : incoming.generationId = none) :
    reconcileTerminalState incoming current =
      { incoming with
        previewUrl := none, isConfirmed := some false, isTransient := some false,
        isSynthesizing := some false, isPolished := some false,
        requiresGeneration := some false, sourceReference := none } := by
  unfold reconcileTerminalState
  rw [if_pos]
  exact ⟨hstatus, by rw [hgen]; rfl⟩

/-- Witness for C5 at a concrete idle payload against a concrete current
payload. -/
theorem C5_reset_property_witness :
    ({ basePayload with status := "idle", previewUrl := some "old" } : Payload).status = "idle" ∧
    ({ basePayload with status := "idle", previewUrl := some "old" } : Payload).generationId
      = none ∧
    reconcileTerminalState { basePayload with status := "idle", previewUrl := some "old" }
      (some { basePayload with generationId := some "g7" }) =
      { basePayload with
        status := "idle", previewUrl := none, isConfirmed := some false,
        isTransient := some false, isSynthesizing := some false, isPolished := some false,
        requiresGeneration := some false, sourceReference := none } :=
  ⟨rfl, rfl, by
    rw [C5_reset_property { basePayload with status := "idle", previewUrl := some "old" }
      (some { basePayload with generationId := some "g7" }) rfl rfl]⟩

/-- The spec's gate-filtering example payload: a swapped generative layer, a
synthetic-additive generative layer, and a pixel layer, with generation
disallowed. -/
def gateExample : Payload :=
  { basePayload with
    generationAllowed := some false
    layers := [⟨"0.3.1", "generative"⟩, ⟨"gen-layer-9", "generative"⟩, ⟨"bg", "pixel"⟩] }

/-- C6 counterexample: the claim says a `generative` layer whose id does not
carry the synthetic-additive prefix is retained by the hard-stop gate, but
the filter `l.type !== 'generative' || (l.id && !l.id.startsWith('gen-layer-'))`
drops a generative layer whose id is the empty string (falsy), although the
empty id does not carry the prefix. -/
theorem C6_counterexample :
    isSyntheticId "" = false ∧
    ({ basePayload with generationAllowed := some false, layers := [⟨"", "generative"⟩] }
      : Payload).layers = [⟨"", "generative"⟩] ∧
    (reconcileTerminalState
      { basePayload with generationAllowed := some false, layers := [⟨"", "generative"⟩] }
      none).layers = [] := by
  refine ⟨rfl, rfl, ?_⟩
  decide

/-- C6 (corrected): for every `incoming` not matching the reset rule and
with `generationAllowed = false`, and every `current`, the gate clears
`previewUrl`, `isConfirmed`, `isTransient`, `isSynthesizing`,
`requiresGeneration`, preserves `metrics` (and all unmentioned fields)
verbatim from incoming, and keeps exactly the incoming layers that are not
(generative with an empty id or a synthetic-additive id) — amending the
claim only in that a generative layer with an *empty* id is also dropped. -/
theorem C6_hard_stop_gate (incoming : Payload) (current : Option Payload)
    (hreset : ¬ (incoming.status = "idle" ∧ strTruthy incoming.generationId = false))
    (hgate : incoming.generationAllowed = some false) :
    reconcileTerminalState incoming current =
      { incoming with
        previewUrl := none, isConfirmed := some false, isTransient := some false,
        isSynthesizing := some false, requiresGeneration := some false,
        layers := (incoming.layers.filter fun l =>
          !(l.type == "generative" && (l.id == "" || isSyntheticId l.id))) } := by
  unfold reconcileTerminalState
  rw [if_neg hreset, if_pos hgate]
  have hfun :
      (fun l : Layer => !(l.type == "generative") || (!(l.id == "") && !(isSyntheticId l.id)))
        = fun l : Layer => !(l.type == "generative" && (l.id == "" || isSyntheticId l.id)) := by
    funext l
    cases h1 : (l.type == "generative") <;> cases h2 : (l.id == "") <;>
      cases h3 : isSyntheticId l.id <;> simp [h1, h2, h3]
  rw [hfun]

/-- Witness for C6: the spec's own gate-filtering example — the additive
synthetic layer is dropped, the swapped generative layer and the pixel
layer survive, in order. -/
theorem C6_hard_stop_gate_witness :
    gateExample.generationAllowed = some false ∧
    ¬ (gateExample.status = "idle" ∧ strTruthy gateExample.generationId = false) ∧
    (reconcileTerminalState gateExample none).layers
      = [⟨"0.3.1", "generative"⟩, ⟨"bg", "pixel"⟩] :=
  ⟨rfl, by decide, by
    rw [C6_hard_stop_gate gateExample none (by decide) rfl]
    decide⟩

/-- C2 counterexample: registering an idle payload without a generationId
into ReviewerRegistry stores `isPolished = false` — the reset rule of the
reconciliation engine strips the `isPolished = true` that
`registerReviewerPayload` forced on the input — so a reachable store state
has a ReviewerRegistry entry with `isPolished ≠ true`. -/
theorem C2_counterexample :
    Reachable (registerReviewerPayload initState "n" "h"
      { basePayload with status := "idle" }).1 ∧
    ((registerReviewerPayload initState "n" "h" { basePayload with status := "idle" }
      ).1.reviewerRegistry "n" "h").map Payload.isPolished = some (some false) :=
  ⟨Reachable.step Reachable.init
    (Step.regReviewer initState "n" "h" { basePayload with status := "idle" }),
   by decide⟩

/-- Reconciling a payload with `isPolished = true` forced produces a value
that is polished or an idle reset value, provided the current entry (if
any) already satisfies that invariant. -/
lemma reconcile_reviewerOk (inc : Payload) (cur : Option Payload)
    (hinc : inc.isPolished = some true)
    (hcur : ∀ c, cur = some c → c.isPolished = some true ∨
      (c.status = "idle" ∧ strTruthy c.generationId = false)) :
    (reconcileTerminalState inc cur).isPolished = some true ∨
      ((reconcileTerminalState inc cur).status = "idle" ∧
        strTruthy (reconcileTerminalState inc cur).generationId = false) := by
  unfold reconcileTerminalState
  by_cases h0 : inc.status = "idle" ∧ strTruthy inc.generationId = false
  · rw [if_pos h0]
    exact Or.inr ⟨h0.1, h0.2⟩
  rw [if_neg h0]
  by_cases h1 : inc.generationAllowed = some false
  · rw [if_pos h1]
    exact Or.inl hinc
  rw [if_neg h1]
  by_cases hm : isForcedGen inc = true
  · rw [if_pos hm]
    exact Or.inl hinc
  rw [if_neg hm]
  by_cases hsg : strTruthy (cur.bind Payload.generationId) = true ∧
      strTruthy inc.generationId = true ∧
      genLt (inc.generationId.getD "") ((cur.bind Payload.generationId).getD "") = true
  · rw [if_pos hsg]
    cases cur with
    | none =>
      have hx : strTruthy ((none : Option Payload).bind Payload.generationId) = true := hsg.1
      simp [strTruthy] at hx
    | some c => exact hcur c rfl
  rw [if_neg hsg]
  by_cases h3 : inc.status = "idle"
  · rw [if_pos h3]
    exact Or.inl hinc
  rw [if_neg h3]
  by_cases h4 : boolTruthy inc.isSynthesizing = true
  · rw [if_pos h4]
    cases cur with
    | none => exact Or.inl hinc
    | some c =>
      rcases hcur c rfl with hc | hc
      · exact Or.inl hc
      · exact Or.inr ⟨hc.1, hc.2⟩
  rw [if_neg h4]
  by_cases h6 : strTruthy inc.generationId = false ∧
      strTruthy (cur.bind Payload.generationId) = true
  · rw [if_pos h6]
    exact Or.inl hinc
  rw [if_neg h6]
  exact Or.inl hinc

/-- A `reviewerWrite` of a polished payload preserves the ReviewerRegistry
invariant. -/
lemma reviewerWrite_preserves (st : ProceduralState) (n1 : NodeId) (s1 : SlotId)
    (eff : Payload) (heff : eff.isPolished = some true)
    (ih : ∀ (n : NodeId) (s : SlotId) (v : Payload),
      st.reviewerRegistry n s = some v → v.isPolished = some true ∨
        (v.status = "idle" ∧ strTruthy v.generationId = false)) :
    ∀ (n : NodeId) (s : SlotId) (v : Payload),
      (reviewerWrite st n1 s1 eff).1.reviewerRegistry n s = some v →
        v.isPolished = some true ∨
          (v.status = "idle" ∧ strTruthy v.generationId = false) := by
  intro n s v hv
  unfold reviewerWrite at hv
  split_ifs at hv with hskip
  · exact ih n s v hv
  · have hv2 : setSlot st.reviewerRegistry n1 s1
        (reconcileTerminalState eff (st.reviewerRegistry n1 s1)) n s = some v := hv
    unfold setSlot at hv2
    split_ifs at hv2 with haddr
    · cases Option.some.inj hv2
      exact reconcile_reviewerOk eff (st.reviewerRegistry n1 s1) heff
        (fun c hc => ih n1 s1 c hc)
    · exact ih n s v hv2

/-- `registerTemplate` does not touch ReviewerRegistry. -/
lemma registerTemplate_reviewer (st : ProceduralState) (n : NodeId) (t : String) :
    (registerTemplate st n t).1.reviewerRegistry = st.reviewerRegistry := by
  unfold registerTemplate
  split_ifs <;> rfl

/-- `registerResolved` does not touch ReviewerRegistry. -/
lemma registerResolved_reviewer (st : ProceduralState) (n : NodeId) (s : SlotId)
    (c : String) :
    (registerResolved st n s c).1.reviewerRegistry = st.reviewerRegistry := by
  unfold registerResolved
  split_ifs <;> rfl

/-- `registerPayload` does not touch ReviewerRegistry. -/
lemma registerPayload_reviewer (st : ProceduralState) (n : NodeId) (s : SlotId)
    (p : Payload) (mo : Option Bool) :
    (registerPayload st n s p mo).1.reviewerRegistry = st.reviewerRegistry := by
  unfold registerPayload
  split_ifs <;> rfl

/-- `updatePayload` does not touch ReviewerRegistry. -/
lemma updatePayload_reviewer (st : ProceduralState) (n : NodeId) (s : SlotId)
    (q : PartialPayload) :
    (updatePayload st n s q).1.reviewerRegistry = st.reviewerRegistry := by
  unfold updatePayload
  split_ifs <;> rfl

/-- `registerAnalysis` does not touch ReviewerRegistry. -/
lemma registerAnalysis_reviewer (st : ProceduralState) (n : NodeId) (s : SlotId)
    (a : String) :
    (registerAnalysis st n s a).1.reviewerRegistry = st.reviewerRegistry := by
  unfold registerAnalysis
  split_ifs <;> rfl

/-- `registerFeedback` does not touch ReviewerRegistry. -/
lemma registerFeedback_reviewer (st : ProceduralState) (n : NodeId) (s : SlotId)
    (f : String) :
    (registerFeedback st n s f).1.reviewerRegistry = st.reviewerRegistry := by
  unfold registerFeedback
  split_ifs <;> rfl

/-- `clearFeedback` does not touch ReviewerRegistry. -/
lemma clearFeedback_reviewer (st : ProceduralState) (n : NodeId) (s : SlotId) :
    (clearFeedback st n s).1.reviewerRegistry = st.reviewerRegistry := by
  unfold clearFeedback
  cases he : st.feedbackRegistry n s <;> rfl

/-- `registerKnowledge` does not touch ReviewerRegistry. -/
lemma registerKnowledge_reviewer (st : ProceduralState) (n : NodeId) (c : String) :
    (registerKnowledge st n c).1.reviewerRegistry = st.reviewerRegistry := by
  unfold registerKnowledge
  split_ifs <;> rfl

/-- `updatePreview` does not touch ReviewerRegistry. -/
lemma updatePreview_reviewer (st : ProceduralState) (n : NodeId) (s : SlotId)
    (u : String) :
    (updatePreview st n s u).1.reviewerRegistry = st.reviewerRegistry := by
  unfold updatePreview
  split
  · rfl
  · split_ifs <;> rfl

/-- C2 (corrected): in every reachable store state, every ReviewerRegistry
entry has `isPolished = true` *or* is an idle reset value (`status = idle`
with no truthy generationId and `isPolished = false`) produced by the reset
rule — the unconditional form of the claim fails exactly on reset writes
(the counterexample). -/
theorem C2_reviewer_polished_invariant (st : ProceduralState) (hreach : Reachable st) :
    ∀ (n : NodeId) (s : SlotId) (v : Payload), st.reviewerRegistry n s = some v →
      v.isPolished = some true ∨ (v.status = "idle" ∧ strTruthy v.generationId = false) := by
  induction hreach with
  | init =>
    intro n s v hv
    exact Option.noConfusion hv
  | @step st1 st2 hr hstep ih =>
    cases hstep with
    | regPsd n1 p1 => exact fun n s v hv => ih n s v hv
    | regTemplate n1 t1 =>
      intro n s v hv
      rw [registerTemplate_reviewer] at hv
      exact ih n s v hv
    | regResolved n1 s1 c1 =>
      intro n s v hv
      rw [registerResolved_reviewer] at hv
      exact ih n s v hv
    | regPayload n1 s1 p1 mo1 =>
      intro n s v hv
      rw [registerPayload_reviewer] at hv
      exact ih n s v hv
    | regReviewer n1 s1 p1 =>
      exact reviewerWrite_preserves st1 n1 s1 { p1 with isPolished := some true } rfl ih
    | regPreview n1 s1 p1 u1 =>
      exact reviewerWrite_preserves (previewStorePart st1 n1 s1 u1).1 n1 s1
        { p1 with isPolished := some true } rfl
        (fun n2 s2 v2 hv2 => ih n2 s2 v2
          (by rw [previewStorePart_reviewer] at hv2; exact hv2))
    | updPayload n1 s1 q1 =>
      intro n s v hv
      rw [updatePayload_reviewer] at hv
      exact ih n s v hv
    | regAnalysis n1 s1 a1 =>
      intro n s v hv
      rw [registerAnalysis_reviewer] at hv
      exact ih n s v hv
    | regFeedback n1 s1 f1 =>
      intro n s v hv
      rw [registerFeedback_reviewer] at hv
      exact ih n s v hv
    | clrFeedback n1 s1 =>
      intro n s v hv
      rw [clearFeedback_reviewer] at hv
      exact ih n s v hv
    | regKnowledge n1 c1 =>
      intro n s v hv
      rw [registerKnowledge_reviewer] at hv
      exact ih n s v hv
    | updPreview n1 s1 u1 =>
      intro n s v hv
      rw [updatePreview_reviewer] at hv
      exact ih n s v hv
    | unregister n1 =>
      intro n s v hv
      have hv2 : dropNodeSlots st1.reviewerRegistry n1 n s = some v := hv
      unfold dropNodeSlots at hv2
      split_ifs at hv2
      exact ih n s v hv2
    | flush n1 s1 =>
      intro n s v hv
      have hv2 : dropSlot st1.reviewerRegistry n1 s1 n s = some v := hv
      unfold dropSlot at hv2
      split_ifs at hv2
      exact ih n s v hv2
    | refresh => exact fun n s v hv => ih n s v hv

/-- Witness for C2's amended invariant: a reachable store whose
ReviewerRegistry holds a polished entry satisfies the disjunction. -/
theorem C2_reviewer_polished_invariant_witness :
    ((registerReviewerPayload initState "n" "h" basePayload).1.reviewerRegistry "n" "h"
      = some { basePayload with isPolished := some true, isConfirmed := some false }) ∧
    (({ basePayload with isPolished := some true, isConfirmed := some false }
        : Payload).isPolished = some true ∨
      (({ basePayload with isPolished := some true, isConfirmed := some false }
        : Payload).status = "idle" ∧
       strTruthy ({ basePayload with isPolished := some true, isConfirmed := some false }
        : Payload).generationId = false)) :=
  ⟨by decide,
   C2_reviewer_polished_invariant
     (registerReviewerPayload initState "n" "h" basePayload).1
     (Reachable.step Reachable.init (Step.regReviewer initState "n" "h" basePayload))
     "n" "h" { basePayload with isPolished := some true, isConfirmed := some false }
     (by decide)⟩

/-- C9 counterexample: `registerPsd` performs no structural-equality check.
After storing a binary handle, registering the identical handle again still
produces a fresh store object (change signal `true`) instead of skipping
the write, although the stored value is structurally equal. -/
theorem C9_counterexample :
    (registerPsd initState "n" "binary1").1.psdRegistry "n" = some "binary1" ∧
    (registerPsd (registerPsd initState "n" "binary1").1 "n" "binary1").2 = true ∧
    (registerPsd (registerPsd initState "n" "binary1").1 "n" "binary1").1.psdRegistry "n"
      = some "binary1" := by
  decide

/-- C9 (corrected): every registry writer *except* `registerPsd` performs
the structural-equality check and skips the write entirely — returning the
previous state object with change signal `false` — when the stored value
equals the candidate (for the payload registries, the reconciled
candidate); `registerPsd` writes unconditionally. -/
theorem C9_equality_suppression :
    (∀ (st : ProceduralState) (n : NodeId) (t : String),
      st.templateRegistry n = some t → registerTemplate st n t = (st, false)) ∧
    (∀ (st : ProceduralState) (n : NodeId) (s : SlotId) (c : String),
      st.resolvedRegistry n s = some c → registerResolved st n s c = (st, false)) ∧
    (∀ (st : ProceduralState) (n : NodeId) (s : SlotId) (p : Payload) (mo : Option Bool),
      st.payloadRegistry n s =
        some (reconcileTerminalState (effectiveRegisterPayload p mo)
          (st.payloadRegistry n s)) →
      registerPayload st n s p mo = (st, false)) ∧
    (∀ (st : ProceduralState) (n : NodeId) (s : SlotId) (p : Payload),
      st.reviewerRegistry n s =
        some (reconcileTerminalState { p with isPolished := some true }
          (st.reviewerRegistry n s)) →
      registerReviewerPayload st n s p = (st, false)) ∧
    (∀ (st : ProceduralState) (n : NodeId) (s : SlotId) (p : Payload) (u : String),
      st.previewRegistry n s = some u →
      st.reviewerRegistry n s =
        some (reconcileTerminalState { p with isPolished := some true }
          (st.reviewerRegistry n s)) →
      registerPreviewPayload st n s p u = (st, false, false)) ∧
    (∀ (st : ProceduralState) (n : NodeId) (s : SlotId) (a : String),
      st.analysisRegistry n s = some a → registerAnalysis st n s a = (st, false)) ∧
    (∀ (st : ProceduralState) (n : NodeId) (s : SlotId) (f : String),
      st.feedbackRegistry n s = some f → registerFeedback st n s f = (st, false)) ∧
    (∀ (st : ProceduralState) (n : NodeId) (c : String),
      st.knowledgeRegistry n = some c → registerKnowledge st n c = (st, false)) ∧
    (∀ (st : ProceduralState) (n : NodeId) (s : SlotId) (q : PartialPayload),
      st.payloadRegistry n s =
        some (reconcileTerminalState (mergedOf (st.payloadRegistry n s) q)
          (st.payloadRegistry n s)) →
      updatePayload st n s q = (st, false)) ∧
    (∀ (st : ProceduralState) (n : NodeId) (s : SlotId) (u : String) (cur : Payload),
      st.payloadRegistry n s = some cur → cur.previewUrl = some u →
      updatePreview st n s u = (st, false)) := by
  refine ⟨?_, ?_, ?_, ?_, ?_, ?_, ?_, ?_, ?_, ?_⟩
  · intro st n t h
    unfold registerTemplate
    rw [if_pos h]
  · intro st n s c h
    unfold registerResolved
    rw [if_pos h]
  · intro st n s p mo h
    unfold registerPayload
    rw [if_pos h]
  · intro st n s p h
    unfold registerReviewerPayload reviewerWrite
    rw [if_pos h]
  · intro st n s p u h1 h2
    have hpre : previewStorePart st n s u = (st, false) := by
      unfold previewStorePart
      rw [if_pos h1]
    have hrw : reviewerWrite st n s { p with isPolished := some true } = (st, false) := by
      unfold reviewerWrite
      rw [if_pos h2]
    unfold registerPreviewPayload
    rw [hpre]
    show ((reviewerWrite st n s { p with isPolished := some true }).1, false,
      (reviewerWrite st n s { p with isPolished := some true }).2) = (st, false, false)
    rw [hrw]
  · intro st n s a h
    unfold registerAnalysis
    rw [if_pos h]
  · intro st n s f h
    unfold registerFeedback
    rw [if_pos h]
  · intro st n c h
    unfold registerKnowledge
    rw [if_pos h]
  · intro st n s q h
    unfold updatePayload
    rw [if_neg (fun hc => Option.noConfusion (h ▸ hc.1)), if_pos h]
  · intro st n s u cur hcur hurl
    unfold updatePreview
    simp only [hcur]
    rw [if_pos hurl]

/-- A payload stored after a reset write: a fixpoint of the reconciliation
engine (the reset rule reproduces it unchanged). -/
def idleCleared : Payload :=
  { basePayload with
    status := "idle", isConfirmed := some false, isTransient := some false,
    isSynthesizing := some false, isPolished := some false, requiresGeneration := some false }

/-- A concretely populated store used to witness the equality-suppression
theorem on every registry at once. -/
def fullState : ProceduralState :=
  { psdRegistry := fun k => if k = "n" then some "binary1" else none,
    templateRegistry := fun k => if k = "n" then some "tmpl" else none,
    resolvedRegistry := fun k s => if k = "n" ∧ s = "h" then some "ctx" else none,
    payloadRegistry := fun k s =>
      if k = "n" ∧ s = "h" then some idleCleared
      else if k = "n" ∧ s = "h2" then some { basePayload with previewUrl := some "url" }
      else none,
    reviewerRegistry := fun k s => if k = "n" ∧ s = "h" then some idleCleared else none,
    previewRegistry := fun k s => if k = "n" ∧ s = "h" then some "render" else none,
    analysisRegistry := fun k s => if k = "n" ∧ s = "h" then some "strategy" else none,
    feedbackRegistry := fun k s => if k = "n" ∧ s = "h" then some "fb" else none,
    knowledgeRegistry := fun k => if k = "n" then some "know" else none,
    globalVersion := 0 }

/-- Witness for C9 on `fullState`: every checked writer, handed a candidate
structurally equal to what is stored (reconciled for payload registries),
returns the previous state with change signal `false`. -/
theorem C9_equality_suppression_witness :
    registerTemplate fullState "n" "tmpl" = (fullState, false) ∧
    registerResolved fullState "n" "h" "ctx" = (fullState, false) ∧
    registerPayload fullState "n" "h" idleCleared none = (fullState, false) ∧
    registerReviewerPayload fullState "n" "h" idleCleared = (fullState, false) ∧
    registerPreviewPayload fullState "n" "h" idleCleared "render"
      = (fullState, false, false) ∧
    registerAnalysis fullState "n" "h" "strategy" = (fullState, false) ∧
    registerFeedback fullState "n" "h" "fb" = (fullState, false) ∧
    registerKnowledge fullState "n" "know" = (fullState, false) ∧
    updatePayload fullState "n" "h" emptyPartial = (fullState, false) ∧
    updatePreview fullState "n" "h2" "url" = (fullState, false) :=
  ⟨C9_equality_suppression.1 fullState "n" "tmpl" (by decide),
   C9_equality_suppression.2.1 fullState "n" "h" "ctx" (by decide),
   C9_equality_suppression.2.2.1 fullState "n" "h" idleCleared none (by decide),
   C9_equality_suppression.2.2.2.1 fullState "n" "h" idleCleared (by decide),
   C9_equality_suppression.2.2.2.2.1 fullState "n" "h" idleCleared "render"
     (by decide) (by decide),
   C9_equality_suppression.2.2.2.2.2.1 fullState "n" "h" "strategy" (by decide),
   C9_equality_suppression.2.2.2.2.2.2.1 fullState "n" "h" "fb" (by decide),
   C9_equality_suppression.2.2.2.2.2.2.2.1 fullState "n" "know" (by decide),
   C9_equality_suppression.2.2.2.2.2.2.2.2.1 fullState "n" "h" emptyPartial (by decide),
   C9_equality_suppression.2.2.2.2.2.2.2.2.2 fullState "n" "h2" "url"
     { basePayload with previewUrl := some "url" } (by decide) (by decide)⟩

/-- C7 (confirmed): after `unregisterNode n`, every registry's lookup for
`n` (and any (n, slot) address) is absent, every other node's entries are
unchanged in every registry, and `globalVersion` is exactly one greater. -/
theorem C7_unregister_node (st : ProceduralState) (n m : NodeId) (s : SlotId) (hm : m ≠ n) :
    ((unregisterNode st n).psdRegistry n = none ∧
     (unregisterNode st n).templateRegistry n = none ∧
     (unregisterNode st n).knowledgeRegistry n = none ∧
     (unregisterNode st n).resolvedRegistry n s = none ∧
     (unregisterNode st n).payloadRegistry n s = none ∧
     (unregisterNode st n).reviewerRegistry n s = none ∧
     (unregisterNode st n).previewRegistry n s = none ∧
     (unregisterNode st n).analysisRegistry n s = none ∧
     (unregisterNode st n).feedbackRegistry n s = none) ∧
    ((unregisterNode st n).psdRegistry m = st.psdRegistry m ∧
     (unregisterNode st n).templateRegistry m = st.templateRegistry m ∧
     (unregisterNode st n).knowledgeRegistry m = st.knowledgeRegistry m ∧
     (unregisterNode st n).resolvedRegistry m s = st.resolvedRegistry m s ∧
     (unregisterNode st n).payloadRegistry m s = st.payloadRegistry m s ∧
     (unregisterNode st n).reviewerRegistry m s = st.reviewerRegistry m s ∧
     (unregisterNode st n).previewRegistry m s = st.previewRegistry m s ∧
     (unregisterNode st n).analysisRegistry m s = st.analysisRegistry m s ∧
     (unregisterNode st n).feedbackRegistry m s = st.feedbackRegistry m s) ∧
    (unregisterNode st n).globalVersion = st.globalVersion + 1 := by
  unfold unregisterNode dropNode dropNodeSlots
  simp [hm]

/-- Witness for C7 on a concretely populated store. -/
theorem C7_unregister_node_witness :
    (("m" : NodeId) ≠ "n") ∧
    (unregisterNode (registerPsd initState "n" "p").1 "n").psdRegistry "n" = none ∧
    (unregisterNode (registerPsd initState "n" "p").1 "n").psdRegistry "m"
      = (registerPsd initState "n" "p").1.psdRegistry "m" ∧
    (unregisterNode (registerPsd initState "n" "p").1 "n").globalVersion
      = (registerPsd initState "n" "p").1.globalVersion + 1 :=
  ⟨by decide,
   (C7_unregister_node (registerPsd initState "n" "p").1 "n" "m" "s" (by decide)).1.1,
   (C7_unregister_node (registerPsd initState "n" "p").1 "n" "m" "s" (by decide)).2.1.1,
   (C7_unregister_node (registerPsd initState "n" "p").1 "n" "m" "s" (by decide)).2.2⟩

/-- C8 (confirmed): after `flushPipelineInstance n s`, the (n, s) entry is
absent from the six slot-scoped registries; every other slot `s2 ≠ s` of
node `n` in those registries, the node-scoped (psd/template/knowledge)
entries for `n`, all entries of every other node `m ≠ n` (at every slot
`s3`, flushed-slot name included, and in the node-scoped registries), and
`globalVersion` are unchanged. -/
theorem C8_flush_isolation (st : ProceduralState) (n m : NodeId) (s s2 s3 : SlotId)
    (hs : s2 ≠ s) (hm : m ≠ n) :
    ((flushPipelineInstance st n s).resolvedRegistry n s = none ∧
     (flushPipelineInstance st n s).payloadRegistry n s = none ∧
     (flushPipelineInstance st n s).reviewerRegistry n s = none ∧
     (flushPipelineInstance st n s).previewRegistry n s = none ∧
     (flushPipelineInstance st n s).analysisRegistry n s = none ∧
     (flushPipelineInstance st n s).feedbackRegistry n s = none) ∧
    ((flushPipelineInstance st n s).resolvedRegistry n s2 = st.resolvedRegistry n s2 ∧
     (flushPipelineInstance st n s).payloadRegistry n s2 = st.payloadRegistry n s2 ∧
     (flushPipelineInstance st n s).reviewerRegistry n s2 = st.reviewerRegistry n s2 ∧
     (flushPipelineInstance st n s).previewRegistry n s2 = st.previewRegistry n s2 ∧
     (flushPipelineInstance st n s).analysisRegistry n s2 = st.analysisRegistry n s2 ∧
     (flushPipelineInstance st n s).feedbackRegistry n s2 = st.feedbackRegistry n s2) ∧
    ((flushPipelineInstance st n s).psdRegistry n = st.psdRegistry n ∧
     (flushPipelineInstance st n s).templateRegistry n = st.templateRegistry n ∧
     (flushPipelineInstance st n s).knowledgeRegistry n = st.knowledgeRegistry n) ∧
    ((flushPipelineInstance st n s).resolvedRegistry m s3 = st.resolvedRegistry m s3 ∧
     (flushPipelineInstance st n s).payloadRegistry m s3 = st.payloadRegistry m s3 ∧
     (flushPipelineInstance st n s).reviewerRegistry m s3 = st.reviewerRegistry m s3 ∧
     (flushPipelineInstance st n s).previewRegistry m s3 = st.previewRegistry m s3 ∧
     (flushPipelineInstance st n s).analysisRegistry m s3 = st.analysisRegistry m s3 ∧
     (flushPipelineInstance st n s).feedbackRegistry m s3 = st.feedbackRegistry m s3 ∧
     (flushPipelineInstance st n s).psdRegistry m = st.psdRegistry m ∧
     (flushPipelineInstance st n s).templateRegistry m = st.templateRegistry m ∧
     (flushPipelineInstance st n s).knowledgeRegistry m = st.knowledgeRegistry m) ∧
    (flushPipelineInstance st n s).globalVersion = st.globalVersion := by
  unfold flushPipelineInstance dropSlot
  simp [hs, hm]

/-- Witness for C8 on a concretely populated store, exercising the flushed
slot, another slot of the same node, another node's entry at a third slot,
another node's node-scoped entry, and the version counter. -/
theorem C8_flush_isolation_witness :
    (("s2" : SlotId) ≠ "s") ∧ (("m" : NodeId) ≠ "n") ∧
    (flushPipelineInstance (registerAnalysis initState "n" "s" "a").1 "n" "s").analysisRegistry
      "n" "s" = none ∧
    (flushPipelineInstance (registerAnalysis initState "n" "s" "a").1 "n" "s").analysisRegistry
      "n" "s2" = (registerAnalysis initState "n" "s" "a").1.analysisRegistry "n" "s2" ∧
    (flushPipelineInstance (registerAnalysis initState "n" "s" "a").1 "n" "s").analysisRegistry
      "m" "s3" = (registerAnalysis initState "n" "s" "a").1.analysisRegistry "m" "s3" ∧
    (flushPipelineInstance (registerAnalysis initState "n" "s" "a").1 "n" "s").psdRegistry
      "m" = (registerAnalysis initState "n" "s" "a").1.psdRegistry "m" ∧
    (flushPipelineInstance (registerAnalysis initState "n" "s" "a").1 "n" "s").globalVersion
      = (registerAnalysis initState "n" "s" "a").1.globalVersion :=
  ⟨by decide, by decide,
   (C8_flush_isolation (registerAnalysis initState "n" "s" "a").1 "n" "m" "s" "s2" "s3"
     (by decide) (by decide)).1.2.2.2.2.1,
   (C8_flush_isolation (registerAnalysis initState "n" "s" "a").1 "n" "m" "s" "s2" "s3"
     (by decide) (by decide)).2.1.2.2.2.2.1,
   (C8_flush_isolation (registerAnalysis initState "n" "s" "a").1 "n" "m" "s" "s2" "s3"
     (by decide) (by decide)).2.2.2.1.2.2.2.2.1,
   (C8_flush_isolation (registerAnalysis initState "n" "s" "a").1 "n" "m" "s" "s2" "s3"
     (by decide) (by decide)).2.2.2.1.2.2.2.2.2.2.1,
   (C8_flush_isolation (registerAnalysis initState "n" "s" "a").1 "n" "m" "s" "s2" "s3"
     (by decide) (by decide)).2.2.2.2⟩

end PSD
